import Mathlib

/-!
# Backend-YouTube: the authentication session lifecycle

A shallow embedding of `src/controllers/user.controller.js` (register, login, logout,
refresh, password change, current user, profile updates), of the middleware
`src/middlewares/auth.middleware.js`, of `src/utils/cloudinary.js` and of the response
envelope of `src/utils/apiResponse.js`.

* The user collection is a list of documents; `findById`, `findOne`, `save` and
  `findByIdAndUpdate` act on the first document that matches, as the database does.
* Handlers are functions from the store before the request to an outcome (a response or
  a thrown error) paired with the store after the request, so that what a failing request
  wrote is visible.
* The collaborators whose code is outside the repository (`jsonwebtoken`, `bcrypt`) are
  fields of `Env`; what varies from one request to the next (the clock, the salt, store
  operations that throw) is a `Call`.
* Request fields are strings or absent.
-/

namespace BackendYouTube

/-! ## Data model -/

deriving instance DecidableEq for Except

/-- The `_id` of a user document. -/
abbrev ObjectId := Nat

/-- A document of the `users` collection; `refreshToken` is `none` when the field is unset. -/
structure UserDoc where
  _id : ObjectId
  username : String
  email : String
  fullName : String
  avatar : String
  coverImage : String
  password : String
  refreshToken : Option String
deriving DecidableEq, Repr

/-- A document as a query returns it after `.select(...)`: an excluded field is `none`. -/
structure UserView where
  _id : ObjectId
  username : String
  email : String
  fullName : String
  avatar : String
  coverImage : String
  password : Option String
  refreshToken : Option String
deriving DecidableEq, Repr

/-- The query projection `.select("-a -b")`, given the excluded field names. -/
def UserDoc.select (u : UserDoc) (excluded : List String) : UserView :=
  { _id := u._id
    username := u.username
    email := u.email
    fullName := u.fullName
    avatar := u.avatar
    coverImage := u.coverImage
    password := if "password" ∈ excluded then none else some u.password
    refreshToken := if "refreshToken" ∈ excluded then none else u.refreshToken }

/-- The `users` collection. -/
abbrev Store := List UserDoc

/-- Modelled from the spec: `utils/apiError.js` is not among the sources; a domain error
carries an HTTP-status-like code and a message. -/
structure ApiError where
  statusCode : Int
  message : String
deriving DecidableEq, Repr

/-- A value thrown by a handler: an `ApiError`, or an error of a library with its message. -/
inductive Thrown where
  | api (e : ApiError)
  | other (message : String)
deriving DecidableEq, Repr

/-- The `message` property of a thrown value. -/
def Thrown.message : Thrown → String
  | .api e => e.message
  | .other m => m

/-- The class `ApiResponse` of `utils/apiResponse.js`. -/
structure ApiResponse (α : Type) where
  statusCode : Int
  data : α
  message : String
  success : Bool
deriving DecidableEq, Repr

/-- The constructor `new ApiResponse(statusCode, data, message = "Success")`; an omitted
message is `none`. -/
def ApiResponse.new {α : Type} (statusCode : Int) (data : α) (message : Option String) :
    ApiResponse α :=
  { statusCode := statusCode
    data := data
    message := message.getD "Success"
    success := decide (statusCode < 400) }

/-- The cookie options object `{ httpOnly, secure }`. -/
structure CookieOptions where
  httpOnly : Bool
  secure : Bool
deriving DecidableEq, Repr

/-- A cookie set by `res.cookie(name, value, options)`. -/
structure Cookie where
  name : String
  value : String
  options : CookieOptions
deriving DecidableEq, Repr

/-- The `data` member of the envelopes the session handlers send. -/
inductive ResponseData where
  | login (user : Option UserView) (accessToken refreshToken : String)
  | tokens (accessToken refreshToken : String)
  | empty
  | user (u : Option UserView)
deriving DecidableEq, Repr

/-- What a handler sent: the status of `res.status`, the cookies set and cleared, the body. -/
structure Response where
  status : Nat
  cookies : List Cookie
  cleared : List (String × CookieOptions)
  json : ApiResponse ResponseData
deriving DecidableEq, Repr

/-- The fields of `req.body` the session handlers read. -/
structure Body where
  email : Option String
  username : Option String
  password : Option String
  refreshToken : Option String
  oldPassword : Option String
  newPassword : Option String
deriving DecidableEq, Repr

/-- The parts of a request the session handlers read; `user` is `req.user`, set by
`verifyJWT` on the authenticated routes. -/
structure Request where
  cookieAccessToken : Option String
  cookieRefreshToken : Option String
  body : Body
  user : Option UserView
deriving DecidableEq, Repr

/-- The collaborators outside the repository. `signAccess`, `signRefresh` are `jwt.sign` with
the access and the refresh secret at a clock reading, `verifyRefresh` is `jwt.verify` with
the refresh secret (the `_id` of the payload, when it has one), `compare` and `hash` are
`bcrypt.compare` and `bcrypt.hash`. Each may throw an error with a message. -/
structure Env where
  signAccess : UserView → Nat → Except String String
  signRefresh : ObjectId → Nat → Except String String
  verifyRefresh : String → Nat → Except String (Option ObjectId)
  compare : Option String → String → Except String Bool
  hash : Option String → Nat → Except String String

/-- The circumstances of one request: the clock reading in seconds, the salt drawn by the
hash, and for each store operation of the request, in the order the handler issues them,
the message of the error it throws, if it throws. -/
structure Call where
  now : Nat
  salt : Nat
  dbFault : Nat → Option String

/-! ## The store -/

/-- Apply `f` to the first document that satisfies `p`. -/
def updateFirst (p : UserDoc → Bool) (f : UserDoc → UserDoc) : Store → Store
  | [] => []
  | d :: ds => if p d then f d :: ds else d :: updateFirst p f ds

/-- The query `User.findById(id)`; an undefined id finds nothing. -/
def findById (s : Store) (id : Option ObjectId) : Option UserDoc :=
  match id with
  | none => none
  | some i => s.find? (fun d => d._id == i)

/-- The query `User.findOne({ $or: [{ username }, { email }] })`. -/
def findOne (s : Store) (username email : Option String) : Option UserDoc :=
  s.find? (fun d => decide (username = some d.username) || decide (email = some d.email))

/-- The write `user.save()` of a loaded document: it replaces the stored document of the
same `_id`. -/
def save (s : Store) (u : UserDoc) : Store :=
  updateFirst (fun d => d._id == u._id) (fun _ => u) s

/-- The write `User.findByIdAndUpdate(id, { $unset: { refreshToken: 1 } })`. -/
def unsetRefreshToken (s : Store) (id : ObjectId) : Store :=
  updateFirst (fun d => d._id == id) (fun d => { d with refreshToken := none }) s

/-- The stored refresh token of the user `id`: `none` when there is no such user,
`some none` when the field is unset. -/
def storedRefreshToken (s : Store) (id : ObjectId) : Option (Option String) :=
  (findById s (some id)).map (fun d => d.refreshToken)

/-- The stored password hash of the user `id`. -/
def storedPassword (s : Store) (id : ObjectId) : Option String :=
  (findById s (some id)).map (fun d => d.password)

/-! ## JavaScript truthiness -/

/-- Truthiness of a value that is a string or undefined. -/
def truthy : Option String → Bool
  | none => false
  | some t => t != ""

/-- The expression `a || b`. -/
def jsOr (a b : Option String) : Option String :=
  if truthy a then a else b

/-! ## The user model -/

/-- Modelled from the spec: `models/user.model.js` is not among the sources; the access
token is signed over the subject id and the profile fields, at the clock reading. -/
def UserDoc.generateAccessToken (env : Env) (u : UserDoc) (now : Nat) : Except String String :=
  env.signAccess (u.select ["password", "refreshToken"]) now

/-- Modelled from the spec: `models/user.model.js` is not among the sources; the refresh
token is signed over the subject id only, at the clock reading. -/
def UserDoc.generateRefreshToken (env : Env) (u : UserDoc) (now : Nat) : Except String String :=
  env.signRefresh u._id now

/-- Modelled from the spec: `models/user.model.js` is not among the sources; the password is
verified against the stored hash. -/
def UserDoc.isPasswordCorrect (env : Env) (u : UserDoc) (password : Option String) :
    Except String Bool :=
  env.compare password u.password

/-! ## The controllers -/

/-- The `try` block of `generateAccessAndRefreshTokens`; `k` is the index of its first store
operation within the request. -/
def generateTokensTry (env : Env) (c : Call) (k : Nat) (s : Store) (userId : ObjectId) :
    Except String ((String × String) × Store) :=
  match c.dbFault k with
  | some m => .error m
  | none =>
    match findById s (some userId) with
    | none => .error "Cannot read properties of null (reading 'generateAccessToken')"
    | some user =>
      match user.generateAccessToken env c.now with
      | .error m => .error m
      | .ok accessToken =>
        match user.generateRefreshToken env c.now with
        | .error m => .error m
        | .ok refreshToken =>
          match c.dbFault (k + 1) with
          | some m => .error m
          | none => .ok ((accessToken, refreshToken),
              save s { user with refreshToken := some refreshToken })

/-- The function `generateAccessAndRefreshTokens`: whatever the `try` block throws is
replaced by one `ApiError`. -/
def generateAccessAndRefreshTokens (env : Env) (c : Call) (k : Nat) (s : Store)
    (userId : ObjectId) : Except ApiError (String × String) × Store :=
  match generateTokensTry env c k s userId with
  | .ok (tokens, s') => (.ok tokens, s')
  | .error _ => (.error ⟨500, "Something went wrong while generating tokens"⟩, s)

/-- The options `{ httpOnly: true, secure: true }`. -/
def options : CookieOptions := { httpOnly := true, secure := true }

/-- The `try` block of `refreshAccessToken`, for a truthy incoming token. -/
def refreshTry (env : Env) (c : Call) (s : Store) (incomingRefreshToken : String) :
    Except Thrown Response × Store :=
  match env.verifyRefresh incomingRefreshToken c.now with
  | .error m => (.error (.other m), s)
  | .ok decodedId =>
    match c.dbFault 0 with
    | some m => (.error (.other m), s)
    | none =>
      match findById s decodedId with
      | none => (.error (.api ⟨401, "Invalid refresh token"⟩), s)
      | some user =>
        if some incomingRefreshToken ≠ user.refreshToken then
          (.error (.api ⟨401, "Refresh token expired or already used"⟩), s)
        else
          match generateAccessAndRefreshTokens env c 1 s user._id with
          | (.error e, s') => (.error (.api e), s')
          | (.ok (accessToken, newRefreshToken), s') =>
            (.ok { status := 200
                   cookies := [⟨"accessToken", accessToken, options⟩,
                               ⟨"refreshToken", newRefreshToken, options⟩]
                   cleared := []
                   json := ApiResponse.new 200 (.tokens accessToken newRefreshToken)
                     (some "Access token refreshed") }, s')

/-- The expression `req.cookies?.refreshToken || req.body?.refreshToken`. -/
def incomingRefreshToken (req : Request) : Option String :=
  jsOr req.cookieRefreshToken req.body.refreshToken

/-- The handler `refreshAccessToken`. -/
def refreshAccessToken (env : Env) (c : Call) (s : Store) (req : Request) :
    Except Thrown Response × Store :=
  match incomingRefreshToken req with
  | none => (.error (.api ⟨401, "Unauthorized request"⟩), s)
  | some token =>
    if token = "" then (.error (.api ⟨401, "Unauthorized request"⟩), s)
    else
      match refreshTry env c s token with
      | (.ok response, s') => (.ok response, s')
      | (.error error, s') =>
        (.error (.api ⟨401, if error.message = "" then "Invalid refresh token"
                            else error.message⟩), s')

/-- The handler `loginUser`. Its store operations are, in order: `findOne`, the two of
`generateAccessAndRefreshTokens`, and the `findById` of the document it returns. -/
def loginUser (env : Env) (c : Call) (s : Store) (req : Request) :
    Except Thrown Response × Store :=
  let email := req.body.email
  let username := req.body.username
  let password := req.body.password
  if !truthy username && !truthy email then
    (.error (.api ⟨400, "Username or email is required"⟩), s)
  else
    match c.dbFault 0 with
    | some m => (.error (.other m), s)
    | none =>
      match findOne s username email with
      | none => (.error (.api ⟨404, "User not found"⟩), s)
      | some user =>
        match user.isPasswordCorrect env password with
        | .error m => (.error (.other m), s)
        | .ok isPasswordValid =>
          if !isPasswordValid then (.error (.api ⟨401, "Invalid credentials"⟩), s)
          else
            match generateAccessAndRefreshTokens env c 1 s user._id with
            | (.error e, s') => (.error (.api e), s')
            | (.ok (accessToken, refreshToken), s') =>
              match c.dbFault 3 with
              | some m => (.error (.other m), s')
              | none =>
                let loggedInUser := (findById s' (some user._id)).map
                  (fun d => d.select ["password", "refreshToken"])
                (.ok { status := 200
                       cookies := [⟨"accessToken", accessToken, options⟩,
                                   ⟨"refreshToken", refreshToken, options⟩]
                       cleared := []
                       json := ApiResponse.new 200
                         (.login loggedInUser accessToken refreshToken)
                         (some "User logged in successfully") }, s')

/-- The handler `logoutUser`. -/
def logoutUser (c : Call) (s : Store) (req : Request) : Except Thrown Response × Store :=
  match req.user with
  | none => (.error (.other "Cannot read properties of undefined (reading '_id')"), s)
  | some user =>
    match c.dbFault 0 with
    | some m => (.error (.other m), s)
    | none =>
      (.ok { status := 200
             cookies := []
             cleared := [("accessToken", options), ("refreshToken", options)]
             json := ApiResponse.new 200 .empty (some "User logged out successfully") },
        unsetRefreshToken s user._id)

/-- Modelled from the spec: the pre-save hook of `models/user.model.js` is not among the
sources; a modified password is re-hashed before it is stored. -/
def preSaveHash (env : Env) (c : Call) (password : Option String) : Except String String :=
  env.hash password c.salt

/-- The handler `changeCurrentPassword`. -/
def changeCurrentPassword (env : Env) (c : Call) (s : Store) (req : Request) :
    Except Thrown Response × Store :=
  let oldPassword := req.body.oldPassword
  let newPassword := req.body.newPassword
  match c.dbFault 0 with
  | some m => (.error (.other m), s)
  | none =>
    match findById s (req.user.map (fun v => v._id)) with
    | none => (.error (.other "Cannot read properties of null (reading 'isPasswordCorrect')"), s)
    | some user =>
      match user.isPasswordCorrect env oldPassword with
      | .error m => (.error (.other m), s)
      | .ok isPasswordCorrect =>
        if !isPasswordCorrect then (.error (.api ⟨400, "Invalid old password"⟩), s)
        else
          match preSaveHash env c newPassword with
          | .error m => (.error (.other m), s)
          | .ok hashed =>
            match c.dbFault 1 with
            | some m => (.error (.other m), s)
            | none =>
              (.ok { status := 200
                     cookies := []
                     cleared := []
                     json := ApiResponse.new 200 .empty (some "Password changed successfully") },
                save s { user with password := hashed })

/-! ## The middleware and the profile handlers -/

/-- The collaborators, with `jwt.verify` under the access secret, which the middleware
uses. -/
structure AuthEnv extends Env where
  verifyAccess : String → Nat → Except String (Option ObjectId)

/-- The parts of a request that only `verifyJWT` and the profile handlers read: the
`Authorization` header, `req.body.fullName`, `req.file?.path`, and the paths of
`req.files?.avatar?.[0]` and `req.files?.coverImage?.[0]`. -/
structure ProfileParts where
  authorization : Option String
  fullName : Option String
  filePath : Option String
  avatarPath : Option String
  coverImagePath : Option String
deriving DecidableEq, Repr

/-- The response object of the media service, of which the handlers read `url`. -/
structure CloudResponse where
  url : Option String
deriving DecidableEq, Repr

/-- What the world outside the store does during one request: `cloudinary.uploader.upload`
of a path, the message with which `fs.unlinkSync` of a path throws, if it throws, and the
`_id` a created document receives. -/
structure Effects where
  upload : String → Except String CloudResponse
  unlink : String → Option String
  newId : ObjectId

/-- The characters of `text.replace(pattern, replacement)` for a string pattern: the first
occurrence is replaced. -/
def replaceFirstChars (pattern replacement : List Char) : List Char → List Char
  | [] => if pattern = [] then replacement else []
  | ch :: rest =>
    if pattern.isPrefixOf (ch :: rest) then replacement ++ (ch :: rest).drop pattern.length
    else ch :: replaceFirstChars pattern replacement rest

/-- The call `text.replace(pattern, replacement)` for a string pattern. -/
def jsReplace (text pattern replacement : String) : String :=
  String.mk (replaceFirstChars pattern.data replacement.data text.data)

/-- The function `uploadOnCloudinary` of `utils/cloudinary.js`: the response, or `null`
when there is no path or the upload throws; it throws only when `fs.unlinkSync` does. -/
def uploadOnCloudinary (fx : Effects) (localFilePath : Option String) :
    Except String (Option CloudResponse) :=
  match localFilePath with
  | none => .ok none
  | some path =>
    if path = "" then .ok none
    else
      let attempt : Except String CloudResponse :=
        match fx.upload path with
        | .error m => .error m
        | .ok response =>
          match fx.unlink path with
          | some m => .error m
          | none => .ok response
      match attempt with
      | .ok response => .ok (some response)
      | .error _ =>
        match fx.unlink path with
        | some m => .error m
        | none => .ok none

/-- The `try` block of `verifyJWT`, for a truthy token. -/
def verifyTry (env : AuthEnv) (c : Call) (s : Store) (req : Request) (token : String) :
    Except Thrown Request :=
  match env.verifyAccess token c.now with
  | .error m => .error (.other m)
  | .ok decodedId =>
    match c.dbFault 0 with
    | some m => .error (.other m)
    | none =>
      match (findById s decodedId).map (fun d => d.select ["password", "refreshToken"]) with
      | none => .error (.api ⟨401, "Invalid Access Token"⟩)
      | some user => .ok { req with user := some user }

/-- The middleware `verifyJWT`: the request as it is passed on, with `req.user` set, or the
error thrown. It reads the store and writes nothing. -/
def verifyJWT (env : AuthEnv) (c : Call) (s : Store) (req : Request) (parts : ProfileParts) :
    Except Thrown Request :=
  let token := jsOr req.cookieAccessToken
    (parts.authorization.map (fun h => jsReplace h "Bearer " ""))
  let attempt : Except Thrown Request :=
    match token with
    | none => .error (.api ⟨401, "Unauthorized request"⟩)
    | some t =>
      if t = "" then .error (.api ⟨401, "Unauthorized request"⟩)
      else verifyTry env c s req t
  match attempt with
  | .ok req' => .ok req'
  | .error error =>
    .error (.api ⟨401, if error.message = "" then "Invalid access token" else error.message⟩)

/-- The handler `getCurrentUser`. -/
def getCurrentUser (req : Request) : Response :=
  { status := 200
    cookies := []
    cleared := []
    json := ApiResponse.new 200 (.user req.user) (some "User fetched successfully") }

/-- The query `User.findByIdAndUpdate(id, { $set: ... }, { new: true }).select("-password")`
for the update `set`: the store after it and the document it returns. -/
def findByIdAndUpdate (s : Store) (id : Option ObjectId) (set : UserDoc → UserDoc) :
    Store × Option UserView :=
  match id with
  | none => (s, none)
  | some i =>
    let s' := updateFirst (fun d => d._id == i) set s
    (s', (findById s' (some i)).map (fun d => d.select ["password"]))

/-- The handler `updateAccountDetails`. -/
def updateAccountDetails (c : Call) (s : Store) (req : Request) (parts : ProfileParts) :
    Except Thrown Response × Store :=
  let fullName := parts.fullName
  let email := req.body.email
  match fullName, email with
  | some fullName, some email =>
    if fullName = "" || email = "" then
      (.error (.api ⟨400, "All fields are required"⟩), s)
    else
      match c.dbFault 0 with
      | some m => (.error (.other m), s)
      | none =>
        let (s', user) := findByIdAndUpdate s (req.user.map (fun v => v._id))
          (fun d => { d with fullName := fullName, email := email })
        (.ok { status := 200
               cookies := []
               cleared := []
               json := ApiResponse.new 200 (.user user)
                 (some "Account details updated successfully") }, s')
  | _, _ => (.error (.api ⟨400, "All fields are required"⟩), s)

/-- The handler `updateUserAvatar`. -/
def updateUserAvatar (fx : Effects) (c : Call) (s : Store) (req : Request)
    (parts : ProfileParts) : Except Thrown Response × Store :=
  let avatarLocalPath := parts.filePath
  if !truthy avatarLocalPath then (.error (.api ⟨400, "Avatar file is required"⟩), s)
  else
    match uploadOnCloudinary fx avatarLocalPath with
    | .error m => (.error (.other m), s)
    | .ok none => (.error (.other "Cannot read properties of null (reading 'url')"), s)
    | .ok (some avatar) =>
      match avatar.url with
      | none => (.error (.api ⟨400, "Avatar upload failed"⟩), s)
      | some url =>
        if url = "" then (.error (.api ⟨400, "Avatar upload failed"⟩), s)
        else
          match c.dbFault 0 with
          | some m => (.error (.other m), s)
          | none =>
            let (s', user) := findByIdAndUpdate s (req.user.map (fun v => v._id))
              (fun d => { d with avatar := url })
            (.ok { status := 200
                   cookies := []
                   cleared := []
                   json := ApiResponse.new 200 (.user user)
                     (some "Avatar updated successfully") }, s')

/-- The handler `updateUserCoverImage`. -/
def updateUserCoverImage (fx : Effects) (c : Call) (s : Store) (req : Request)
    (parts : ProfileParts) : Except Thrown Response × Store :=
  let coverImageLocalPath := parts.filePath
  if !truthy coverImageLocalPath then
    (.error (.api ⟨400, "Cover image file is required"⟩), s)
  else
    match uploadOnCloudinary fx coverImageLocalPath with
    | .error m => (.error (.other m), s)
    | .ok none => (.error (.other "Cannot read properties of null (reading 'url')"), s)
    | .ok (some coverImage) =>
      match coverImage.url with
      | none => (.error (.api ⟨400, "Cover image upload failed"⟩), s)
      | some url =>
        if url = "" then (.error (.api ⟨400, "Cover image upload failed"⟩), s)
        else
          match c.dbFault 0 with
          | some m => (.error (.other m), s)
          | none =>
            let (s', user) := findByIdAndUpdate s (req.user.map (fun v => v._id))
              (fun d => { d with coverImage := url })
            (.ok { status := 200
                   cookies := []
                   cleared := []
                   json := ApiResponse.new 200 (.user user)
                     (some "Cover image updated successfully") }, s')

/-- Modelled from the spec: `models/user.model.js` is not among the sources; `User.create`
stores a new document under a fresh `_id` with the password hashed and no refresh token,
and throws when a required field is missing or a unique key (`_id`, username, email) is
taken. -/
def createUser (env : Env) (fx : Effects) (c : Call) (s : Store)
    (fullName avatar : Option String) (coverImage : String) (email password : Option String)
    (username : String) : Except String (UserDoc × Store) :=
  match fullName, avatar, email, password with
  | some fullName, some avatar, some email, some password =>
    if s.any (fun d => d._id == fx.newId || d.username == username || d.email == email) then
      .error "E11000 duplicate key error"
    else
      match preSaveHash env c (some password) with
      | .error m => .error m
      | .ok hashed =>
        let user : UserDoc :=
          { _id := fx.newId, username := username, email := email, fullName := fullName,
            avatar := avatar, coverImage := coverImage, password := hashed,
            refreshToken := none }
        .ok (user, s ++ [user])
  | _, _, _, _ => .error "User validation failed"

/-- The characters that `String.prototype.trim` removes: the white space and the line
terminators of the language (tab, line feed, vertical tab, form feed, carriage return,
space, no-break space, the other space separators of Unicode, the line and paragraph
separators, the byte order mark). -/
def jsWhiteSpace (ch : Char) : Bool :=
  decide (ch.toNat ∈ [0x9, 0xA, 0xB, 0xC, 0xD, 0x20, 0xA0, 0x1680, 0x2028, 0x2029, 0x202F,
    0x205F, 0x3000, 0xFEFF]) || (decide (0x2000 ≤ ch.toNat) && decide (ch.toNat ≤ 0x200A))

/-- The call `text.trim()`. -/
def jsTrim (text : String) : String :=
  String.mk ((text.data.dropWhile jsWhiteSpace).reverse.dropWhile jsWhiteSpace).reverse

/-- The handler `registerUser`; `toLowerCase` is `String.prototype.toLowerCase` of the
runtime. Its store operations are, in order: `findOne`, `create`, `findById`. -/
def registerUser (env : Env) (toLowerCase : String → String) (fx : Effects) (c : Call)
    (s : Store) (req : Request) (parts : ProfileParts) : Except Thrown Response × Store :=
  let fullName := parts.fullName
  let email := req.body.email
  let username := req.body.username
  let password := req.body.password
  if [fullName, email, username, password].any
      (fun field => field.map jsTrim == some "") then
    (.error (.api ⟨400, "All fields are required"⟩), s)
  else
    match c.dbFault 0 with
    | some m => (.error (.other m), s)
    | none =>
      match findOne s username email with
      | some _ => (.error (.api ⟨409, "User with email or username already exists"⟩), s)
      | none =>
        let avatarLocalPath := parts.avatarPath
        let coverImageLocalPath := parts.coverImagePath
        if !truthy avatarLocalPath then (.error (.api ⟨400, "Avatar file is required"⟩), s)
        else
          match uploadOnCloudinary fx avatarLocalPath with
          | .error m => (.error (.other m), s)
          | .ok avatar =>
            match (if truthy coverImageLocalPath then
                uploadOnCloudinary fx coverImageLocalPath else .ok none) with
            | .error m => (.error (.other m), s)
            | .ok coverImage =>
              match avatar with
              | none => (.error (.api ⟨400, "Avatar upload failed"⟩), s)
              | some avatar =>
                match username with
                | none =>
                  (.error (.other
                    "Cannot read properties of undefined (reading 'toLowerCase')"), s)
                | some username =>
                  match c.dbFault 1 with
                  | some m => (.error (.other m), s)
                  | none =>
                    match createUser env fx c s fullName avatar.url
                        ((jsOr (coverImage.bind (fun r => r.url)) (some "")).getD "")
                        email password (toLowerCase username) with
                    | .error m => (.error (.other m), s)
                    | .ok (user, s') =>
                      match c.dbFault 2 with
                      | some m => (.error (.other m), s')
                      | none =>
                        match (findById s' (some user._id)).map
                            (fun d => d.select ["password", "refreshToken"]) with
                        | none =>
                          (.error (.api ⟨500, "Error while registering user"⟩), s')
                        | some createdUser =>
                          (.ok { status := 201
                                 cookies := []
                                 cleared := []
                                 json := ApiResponse.new 200 (.user (some createdUser))
                                   (some "User registered successfully") }, s')

/-- The route `GET /current-user`: `verifyJWT`, then `getCurrentUser`. -/
def currentUserRoute (env : AuthEnv) (c : Call) (s : Store) (req : Request)
    (parts : ProfileParts) : Except Thrown Response × Store :=
  match verifyJWT env c s req parts with
  | .error e => (.error e, s)
  | .ok req' => (.ok (getCurrentUser req'), s)

/-- The route `PATCH /update-account`: `verifyJWT` under the circumstances `cm`, then
`updateAccountDetails` under `c`. -/
def updateAccountRoute (env : AuthEnv) (cm c : Call) (s : Store) (req : Request)
    (parts : ProfileParts) : Except Thrown Response × Store :=
  match verifyJWT env cm s req parts with
  | .error e => (.error e, s)
  | .ok req' => updateAccountDetails c s req' parts

/-- The route `PATCH /avatar`: `verifyJWT`, then `updateUserAvatar`. -/
def avatarRoute (env : AuthEnv) (fx : Effects) (cm c : Call) (s : Store) (req : Request)
    (parts : ProfileParts) : Except Thrown Response × Store :=
  match verifyJWT env cm s req parts with
  | .error e => (.error e, s)
  | .ok req' => updateUserAvatar fx c s req' parts

/-- The route `PATCH /cover-image`: `verifyJWT`, then `updateUserCoverImage`. -/
def coverImageRoute (env : AuthEnv) (fx : Effects) (cm c : Call) (s : Store) (req : Request)
    (parts : ProfileParts) : Except Thrown Response × Store :=
  match verifyJWT env cm s req parts with
  | .error e => (.error e, s)
  | .ok req' => updateUserCoverImage fx c s req' parts

/-- The user record a response carries in its data, if it carries one. -/
def Response.userRecord (r : Response) : Option UserView :=
  match r.json.data with
  | .login user _ _ => user
  | .user u => u
  | _ => none

/-- The invariant of the collection: `_id` is a unique key. -/
def UniqueIds (s : Store) : Prop :=
  s.Pairwise (fun a b => a._id ≠ b._id)

instance (s : Store) : Decidable (UniqueIds s) := by
  unfold UniqueIds
  infer_instance

/-! ## A concrete world

A token issuer, verifier and password hash that can be evaluated, and a small store: the
inputs at which the theorems below are instantiated. A token is a tag, the subject id in
unary, a dot, and the second of issue in unary; a refresh token lives ten seconds. -/

/-- A token of the class `tag` for the subject `id`, issued at `now`. -/
def demoSign (tag : Char) (id now : Nat) : String :=
  String.mk (tag :: (List.replicate id 'u' ++ '.' :: List.replicate now 't'))

/-- Verification of a token of the class `tag`: the subject id, unless the tag is wrong or
the token is older than `lifetime`. -/
def demoVerify (tag : Char) (lifetime : Nat) (token : String) (now : Nat) :
    Except String (Option ObjectId) :=
  match token.data with
  | [] => .error "jwt must be provided"
  | c :: rest =>
    if c = tag then
      if now ≤ ((rest.dropWhile (fun x => x == 'u')).drop 1).length + lifetime then
        .ok (some (rest.takeWhile (fun x => x == 'u')).length)
      else .error "jwt expired"
    else .error "invalid signature"

/-- A salted hash: the salt in unary, a dollar sign, the password. -/
def demoHash (password : Option String) (salt : Nat) : Except String String :=
  match password with
  | none => .error "data and salt arguments required"
  | some p => .ok (String.mk (List.replicate salt 's' ++ '$' :: p.data))

/-- Comparison of a password with a hash of `demoHash`. -/
def demoCompare (password : Option String) (hashed : String) : Except String Bool :=
  match password with
  | none => .error "data and hash arguments required"
  | some p => .ok (decide ((hashed.data.dropWhile (fun x => x == 's')).drop 1 = p.data))

/-- The concrete collaborators. -/
def demoEnv : Env :=
  { signAccess := fun v now => .ok (demoSign 'A' v._id now)
    signRefresh := fun id now => .ok (demoSign 'R' id now)
    verifyRefresh := demoVerify 'R' 10
    compare := demoCompare
    hash := demoHash }

/-- A request at the second `now` in which no store operation throws. -/
def calmCall (now : Nat) : Call :=
  { now := now, salt := 1, dbFault := fun _ => none }

/-- A request at the second `now` in which the store operation number `k` throws. -/
def faultyCall (now k : Nat) : Call :=
  { now := now, salt := 1, dbFault := fun i => if i = k then some "connection lost" else none }

/-- The user `alice`, with the password `pw` and the refresh token issued at second 3. -/
def alice : UserDoc :=
  { _id := 1, username := "alice", email := "alice@x.com", fullName := "Alice",
    avatar := "a.png", coverImage := "", password := "s$pw",
    refreshToken := some (demoSign 'R' 1 3) }

/-- The user `bob`, who is logged out. -/
def bob : UserDoc :=
  { _id := 2, username := "bob", email := "bob@x.com", fullName := "Bob",
    avatar := "b.png", coverImage := "", password := "s$hunter2", refreshToken := none }

/-- A store of two users. -/
def demoStore : Store := [alice, bob]

/-- A request body without fields. -/
def emptyBody : Body :=
  { email := none, username := none, password := none, refreshToken := none,
    oldPassword := none, newPassword := none }

/-- The response of a refresh that issued the tokens `a` and `r`. -/
def refreshResponse (a r : String) : Response :=
  { status := 200
    cookies := [⟨"accessToken", a, ⟨true, true⟩⟩, ⟨"refreshToken", r, ⟨true, true⟩⟩]
    cleared := []
    json := { statusCode := 200, data := .tokens a r,
              message := "Access token refreshed", success := true } }

/-- The response of a login of the user `u` that issued the tokens `a` and `r`. -/
def loginResponse (u : UserDoc) (a r : String) : Response :=
  { status := 200
    cookies := [⟨"accessToken", a, ⟨true, true⟩⟩, ⟨"refreshToken", r, ⟨true, true⟩⟩]
    cleared := []
    json := { statusCode := 200
              data := .login (some (u.select ["password", "refreshToken"])) a r
              message := "User logged in successfully", success := true } }

/-- The body of a password change. -/
def passwordBody (oldPassword newPassword : String) : Body :=
  { emptyBody with oldPassword := some oldPassword, newPassword := some newPassword }

/-- Collaborators whose refresh-token signing throws, as `jwt.sign` does without a secret. -/
def brokenEnv : Env :=
  { demoEnv with signRefresh := fun _ _ => .error "secretOrPrivateKey must have a value" }

/-- A refresh request that carries `token` in the cookie. -/
def refreshRequest (token : String) : Request :=
  { cookieAccessToken := none, cookieRefreshToken := some token, body := emptyBody,
    user := none }

/-- A login request by username. -/
def loginRequest (username password : String) : Request :=
  { cookieAccessToken := none, cookieRefreshToken := none,
    body := { emptyBody with username := some username, password := some password },
    user := none }

/-- A request of the authenticated user `u`, with the body `body`. -/
def authedRequest (u : UserDoc) (body : Body) : Request :=
  { cookieAccessToken := none, cookieRefreshToken := none, body := body,
    user := some (u.select ["password", "refreshToken"]) }

/-- The concrete collaborators with the verifier of access tokens. -/
def demoAuthEnv : AuthEnv :=
  { toEnv := demoEnv, verifyAccess := demoVerify 'A' 10 }

/-- A media service that stores every file under the url `cdn/new.png`, a file system that
does not throw, and `3` as the next `_id`. -/
def demoEffects : Effects :=
  { upload := fun _ => .ok { url := some "cdn/new.png" }
    unlink := fun _ => none
    newId := 3 }

/-- A request without header and files. -/
def noParts : ProfileParts :=
  { authorization := none, fullName := none, filePath := none, avatarPath := none,
    coverImagePath := none }

/-- A request that carries the access token `token` in the cookie, with the body `body`. -/
def accessRequest (token : String) (body : Body) : Request :=
  { cookieAccessToken := some token, cookieRefreshToken := none, body := body, user := none }

/-- A lowering of the letters `A` to `Z`, which is `toLowerCase` on such text. -/
def asciiLower (text : String) : String :=
  String.mk (text.data.map Char.toLower)

/-- A registration request of `carol` with the full name `fullName` and an avatar file. -/
def registerRequest : Request :=
  { cookieAccessToken := none, cookieRefreshToken := none,
    body := { emptyBody with email := some "carol@x.com", username := some "Carol",
                             password := some "pw3" },
    user := none }

/-- The files and the full name of a registration request. -/
def registerParts (fullName : String) : ProfileParts :=
  { noParts with fullName := some fullName, avatarPath := some "public/temp/c.png" }

/-! ## Lemmas on the store -/

/-- Loading by id after an update of the first document of the id `id`. -/
theorem findById_updateFirst (f : UserDoc → UserDoc) (id j : ObjectId)
    (hf : ∀ d : UserDoc, d._id = id → (f d)._id = id) (s : Store) :
    findById (updateFirst (fun d => d._id == id) f s) (some j) =
      if j = id then (findById s (some id)).map f else findById s (some j) := by
  induction s with
  | nil => simp [updateFirst, findById]
  | cons d ds ih =>
    simp only [findById] at ih ⊢
    by_cases hd : d._id = id
    · have hfd : (f d)._id = id := hf d hd
      by_cases hj : j = id
      · subst hj
        simp [updateFirst, List.find?_cons, hd, hfd]
      · have hdj : ¬ d._id = j := fun h => hj (h ▸ hd)
        have hfj : ¬ (f d)._id = j := fun h => hj (h ▸ hfd)
        have hij : ¬ id = j := fun h => hj h.symm
        simp [updateFirst, List.find?_cons, hd, hj, hfj, hij]
    · by_cases hj : j = id
      · subst hj
        simpa [updateFirst, List.find?_cons, hd] using ih
      · by_cases hdj : d._id = j
        · simp [updateFirst, List.find?_cons, hd, hj, hdj]
        · simpa [updateFirst, List.find?_cons, hd, hj, hdj] using ih

/-- A document loaded by id has the id it was loaded by. -/
theorem findById_id {s : Store} {i : Option ObjectId} {u : UserDoc}
    (h : findById s i = some u) : i = some u._id := by
  cases i with
  | none => simp [findById] at h
  | some j =>
    simp only [findById] at h
    have := List.find?_some h
    simp at this
    simp [this]

/-- Loading by id after `save`. -/
theorem findById_save (s : Store) (u : UserDoc) (j : ObjectId) :
    findById (save s u) (some j) =
      if j = u._id then (findById s (some u._id)).map (fun _ => u) else findById s (some j) :=
  findById_updateFirst (fun _ => u) u._id j (fun _ _ => rfl) s

/-- Loading by id after the `$unset` of the refresh token. -/
theorem findById_unsetRefreshToken (s : Store) (id j : ObjectId) :
    findById (unsetRefreshToken s id) (some j) =
      if j = id then (findById s (some id)).map (fun d => { d with refreshToken := none })
      else findById s (some j) :=
  findById_updateFirst (fun d => { d with refreshToken := none }) id j (fun _ h => h) s

/-! ## Lemmas on the concrete world -/

/-- The subject that `demoVerify` reads from a token of `demoSign`. -/
theorem demoVerify_demoSign (tag : Char) (lifetime id t now : Nat) (i : Option ObjectId)
    (h : demoVerify tag lifetime (demoSign tag id t) now = .ok i) : i = some id := by
  have htw : List.takeWhile (fun x => x == 'u')
      (List.replicate id 'u' ++ '.' :: List.replicate t 't') = List.replicate id 'u' := by
    induction id with
    | zero => simp [List.takeWhile_cons]
    | succ n ih => simp [List.replicate_succ, List.takeWhile_cons, ih]
  simp only [demoVerify, demoSign, if_true, htw, List.length_replicate] at h
  split at h
  · simp only [Except.ok.injEq] at h
    exact h.symm
  · simp at h

/-! ## Lemmas on token generation and refresh -/

/-- The token generation of a loaded user succeeds when neither the issuer nor the store
throws: it returns the two signed tokens and saves the refresh token on the user. -/
theorem generateAccessAndRefreshTokens_ok (env : Env) (c : Call) (k : Nat) (s : Store)
    (user : UserDoc) (a r : String)
    (huser : findById s (some user._id) = some user)
    (hdb1 : c.dbFault k = none) (hdb2 : c.dbFault (k + 1) = none)
    (ha : env.signAccess (user.select ["password", "refreshToken"]) c.now = .ok a)
    (hr : env.signRefresh user._id c.now = .ok r) :
    generateAccessAndRefreshTokens env c k s user._id =
      (.ok (a, r), save s { user with refreshToken := some r }) := by
  simp [generateAccessAndRefreshTokens, generateTokensTry, UserDoc.generateAccessToken,
    UserDoc.generateRefreshToken, huser, hdb1, hdb2, ha, hr]

/-- A failing token generation throws the one fixed error and writes nothing. -/
theorem generateAccessAndRefreshTokens_error (env : Env) (c : Call) (k : Nat) (s : Store)
    (userId : ObjectId) (e : ApiError) (s' : Store)
    (h : generateAccessAndRefreshTokens env c k s userId = (.error e, s')) :
    e = ⟨500, "Something went wrong while generating tokens"⟩ ∧ s' = s := by
  unfold generateAccessAndRefreshTokens at h
  split at h
  · simp at h
  · simp only [Prod.mk.injEq, Except.error.injEq] at h
    exact ⟨h.1.symm, h.2.symm⟩

/-- A succeeding token generation has loaded the user, signed the refresh token for its id
at the clock reading of the request, and saved it on the user. -/
theorem generateAccessAndRefreshTokens_inv (env : Env) (c : Call) (k : Nat) (s : Store)
    (userId : ObjectId) (a r : String) (s' : Store)
    (h : generateAccessAndRefreshTokens env c k s userId = (.ok (a, r), s')) :
    ∃ user, findById s (some userId) = some user ∧
      env.signAccess (user.select ["password", "refreshToken"]) c.now = .ok a ∧
      env.signRefresh userId c.now = .ok r ∧
      s' = save s { user with refreshToken := some r } := by
  unfold generateAccessAndRefreshTokens at h
  split at h
  · rename_i tokens s'' hgen
    simp only [Prod.mk.injEq, Except.ok.injEq] at h
    obtain ⟨h1, h2⟩ := h
    subst h1 h2
    unfold generateTokensTry at hgen
    split at hgen
    · simp at hgen
    · split at hgen
      · simp at hgen
      · rename_i user huser
        have hid : some userId = some user._id := findById_id huser
        simp only [Option.some.injEq] at hid
        simp only [UserDoc.generateAccessToken, UserDoc.generateRefreshToken] at hgen
        split at hgen
        · simp at hgen
        · rename_i a' ha
          split at hgen
          · simp at hgen
          · rename_i r' hr
            split at hgen
            · simp at hgen
            · simp only [Except.ok.injEq, Prod.mk.injEq] at hgen
              obtain ⟨⟨h1, h2⟩, h3⟩ := hgen
              subst h1 h2
              exact ⟨user, huser, ha, hid ▸ hr, h3.symm⟩
  · simp at h

/-- The stored refresh token after `save` of a loaded user with a new token. -/
theorem storedRefreshToken_save (s : Store) (user : UserDoc) (r : String)
    (huser : findById s (some user._id) = some user) :
    storedRefreshToken (save s { user with refreshToken := some r }) user._id =
      some (some r) := by
  have h := findById_save s { user with refreshToken := some r } user._id
  simp only [if_true] at h
  simp [storedRefreshToken, h, huser]

/-- The replay check: a verifying token that is not the stored one of the loaded user. -/
theorem refreshAccessToken_mismatch (env : Env) (c : Call) (s : Store) (req : Request)
    (token : String) (decodedId : Option ObjectId) (user : UserDoc)
    (hin : incomingRefreshToken req = some token) (hne : token ≠ "")
    (hver : env.verifyRefresh token c.now = .ok decodedId)
    (hdb : c.dbFault 0 = none)
    (huser : findById s decodedId = some user)
    (hneq : user.refreshToken ≠ some token) :
    refreshAccessToken env c s req =
      (.error (.api ⟨401, "Refresh token expired or already used"⟩), s) := by
  have hneq' : ¬ (some token = user.refreshToken) := fun h => hneq h.symm
  simp [refreshAccessToken, refreshTry, hin, hne, hver, hdb, huser, hneq', Thrown.message]

/-- The rotation: a verifying token that is the stored one of the loaded user, when neither
the issuer nor the store throws. -/
theorem refreshAccessToken_match (env : Env) (c : Call) (s : Store) (req : Request)
    (token : String) (decodedId : Option ObjectId) (user : UserDoc) (a r : String)
    (hin : incomingRefreshToken req = some token) (hne : token ≠ "")
    (hver : env.verifyRefresh token c.now = .ok decodedId)
    (hdb0 : c.dbFault 0 = none) (hdb1 : c.dbFault 1 = none) (hdb2 : c.dbFault 2 = none)
    (huser : findById s decodedId = some user)
    (hstored : user.refreshToken = some token)
    (ha : env.signAccess (user.select ["password", "refreshToken"]) c.now = .ok a)
    (hr : env.signRefresh user._id c.now = .ok r) :
    refreshAccessToken env c s req =
      (.ok { status := 200
             cookies := [⟨"accessToken", a, ⟨true, true⟩⟩, ⟨"refreshToken", r, ⟨true, true⟩⟩]
             cleared := []
             json := { statusCode := 200, data := .tokens a r,
                       message := "Access token refreshed", success := true } },
        save s { user with refreshToken := some r }) := by
  have hid : decodedId = some user._id := findById_id huser
  have huser' : findById s (some user._id) = some user := hid ▸ huser
  have hgen := generateAccessAndRefreshTokens_ok env c 1 s user a r huser' hdb1 hdb2 ha hr
  simp [refreshAccessToken, refreshTry, hin, hne, hver, hdb0, huser, hstored, hgen,
    ApiResponse.new, options]

/-- Whatever the request, a refresh that fails throws a 401 error and leaves the store as it
was; and it fails whenever the user the token names, if loaded, does not store the token. -/
theorem refreshAccessToken_rejects (env : Env) (c : Call) (s : Store) (req : Request)
    (hstale : ∀ token decodedId user, incomingRefreshToken req = some token →
      env.verifyRefresh token c.now = .ok decodedId → findById s decodedId = some user →
      user.refreshToken ≠ some token) :
    ∃ m, refreshAccessToken env c s req = (.error (.api ⟨401, m⟩), s) := by
  unfold refreshAccessToken
  cases hin : incomingRefreshToken req with
  | none => exact ⟨_, rfl⟩
  | some token =>
    by_cases hne : token = ""
    · simp [hne]
    · simp only [hne, if_false]
      have key : ∃ e, refreshTry env c s token = (.error e, s) := by
        cases hver : env.verifyRefresh token c.now with
        | error m => exact ⟨_, by simp only [refreshTry, hver]; rfl⟩
        | ok decodedId =>
          cases hdb : c.dbFault 0 with
          | some m => exact ⟨_, by simp only [refreshTry, hver, hdb]; rfl⟩
          | none =>
            cases huser : findById s decodedId with
            | none => exact ⟨_, by simp only [refreshTry, hver, hdb, huser]; rfl⟩
            | some user =>
              have hneq : some token ≠ user.refreshToken :=
                fun h => hstale token decodedId user hin hver huser h.symm
              exact ⟨_, by simp only [refreshTry, hver, hdb, huser, hneq, ne_eq,
                not_false_eq_true, if_true]; rfl⟩
      obtain ⟨e, he⟩ := key
      rw [he]
      exact ⟨_, rfl⟩

/-- A succeeding refresh was given the stored token of the user it names, signed the new
tokens for that user at the clock reading of the request, and saved the new refresh token. -/
theorem refreshAccessToken_ok_inv (env : Env) (c : Call) (s : Store) (req : Request)
    (resp : Response) (s' : Store)
    (hok : refreshAccessToken env c s req = (.ok resp, s')) :
    ∃ token user a r, incomingRefreshToken req = some token ∧ token ≠ "" ∧
      env.verifyRefresh token c.now = .ok (some user._id) ∧
      findById s (some user._id) = some user ∧ user.refreshToken = some token ∧
      env.signRefresh user._id c.now = .ok r ∧
      resp.status = 200 ∧ resp.json.statusCode = 200 ∧ resp.json.data = .tokens a r ∧
      s' = save s { user with refreshToken := some r } := by
  unfold refreshAccessToken at hok
  cases hin : incomingRefreshToken req with
  | none => simp [hin] at hok
  | some token =>
    by_cases hne : token = ""
    · simp [hin, hne] at hok
    · simp only [hin, hne, if_false] at hok
      cases hver : env.verifyRefresh token c.now with
      | error m => simp [refreshTry, hver] at hok
      | ok decodedId =>
        cases hdb : c.dbFault 0 with
        | some m => simp [refreshTry, hver, hdb] at hok
        | none =>
          cases huser : findById s decodedId with
          | none => simp [refreshTry, hver, hdb, huser] at hok
          | some user =>
            have hid : decodedId = some user._id := findById_id huser
            by_cases hst : some token = user.refreshToken
            · cases hgen : generateAccessAndRefreshTokens env c 1 s user._id with
              | mk out s'' =>
                cases out with
                | error e => simp [refreshTry, hver, hdb, huser, hst, hgen] at hok
                | ok tokens =>
                  obtain ⟨a, r⟩ := tokens
                  obtain ⟨u', hu', _, hr, hs''⟩ :=
                    generateAccessAndRefreshTokens_inv env c 1 s user._id a r s'' hgen
                  have huser' : findById s (some user._id) = some user := hid ▸ huser
                  have huu : u' = user := by
                    rw [huser'] at hu'
                    exact (Option.some.inj hu').symm
                  subst huu
                  simp only [refreshTry, hver, hdb, huser, hst, hgen, ne_eq,
                    not_true_eq_false, if_false, Prod.mk.injEq, Except.ok.injEq] at hok
                  obtain ⟨hresp, hstore⟩ := hok
                  subst hresp hstore
                  exact ⟨token, u', a, r, rfl, hne, hid ▸ hver, huser', hst.symm, hr,
                    rfl, rfl, rfl, hs''⟩
            · simp [refreshTry, hver, hdb, huser, hst] at hok

/-! ## Refresh: replay check and rotation -/

/-- C1. Replay check of `refreshAccessToken`: when the incoming token verifies and the user
it names is loaded, but the token is not the user's stored refresh token, the handler
throws the 401 error "Refresh token expired or already used", sends no response (so no
tokens), and the store, hence every stored refresh token, is as before. -/
theorem refreshAccessToken_replay_rejected (env : Env) (c : Call) (s : Store) (req : Request)
    (token : String) (decodedId : Option ObjectId) (user : UserDoc)
    (hin : incomingRefreshToken req = some token) (hne : token ≠ "")
    (hver : env.verifyRefresh token c.now = .ok decodedId)
    (hdb : c.dbFault 0 = none)
    (huser : findById s decodedId = some user)
    (hneq : user.refreshToken ≠ some token) :
    refreshAccessToken env c s req =
        (.error (.api ⟨401, "Refresh token expired or already used"⟩), s) ∧
      ∀ id, storedRefreshToken (refreshAccessToken env c s req).2 id =
        storedRefreshToken s id := by
  have h := refreshAccessToken_mismatch env c s req token decodedId user hin hne hver hdb
    huser hneq
  exact ⟨h, fun id => by rw [h]⟩

/-- C1 at a concrete input: bob is logged out, and a verifying token for him is rejected. -/
theorem refreshAccessToken_replay_rejected_witness :
    refreshAccessToken demoEnv (calmCall 5) demoStore (refreshRequest (demoSign 'R' 2 4)) =
        (.error (.api ⟨401, "Refresh token expired or already used"⟩), demoStore) ∧
      ∀ id, storedRefreshToken (refreshAccessToken demoEnv (calmCall 5) demoStore
        (refreshRequest (demoSign 'R' 2 4))).2 id = storedRefreshToken demoStore id :=
  refreshAccessToken_replay_rejected demoEnv (calmCall 5) demoStore
    (refreshRequest (demoSign 'R' 2 4)) (demoSign 'R' 2 4) (some 2) bob
    (by decide) (by decide) (by decide) rfl (by decide) (by decide)

/-- C2. Rotation on use in `refreshAccessToken`: when the incoming token verifies, names a
user that is loaded and equals that user's stored refresh token, and neither the issuer nor
the store throws, the handler answers 200 with the newly signed access and refresh token
(in the body and in the two cookies), the user's stored refresh token is afterwards the
returned one, and the document of every other id is as before. -/
theorem refreshAccessToken_rotates (env : Env) (c : Call) (s : Store) (req : Request)
    (token : String) (decodedId : Option ObjectId) (user : UserDoc) (a r : String)
    (hin : incomingRefreshToken req = some token) (hne : token ≠ "")
    (hver : env.verifyRefresh token c.now = .ok decodedId)
    (hdb0 : c.dbFault 0 = none) (hdb1 : c.dbFault 1 = none) (hdb2 : c.dbFault 2 = none)
    (huser : findById s decodedId = some user)
    (hstored : user.refreshToken = some token)
    (ha : env.signAccess (user.select ["password", "refreshToken"]) c.now = .ok a)
    (hr : env.signRefresh user._id c.now = .ok r) :
    refreshAccessToken env c s req =
        (.ok { status := 200
               cookies := [⟨"accessToken", a, ⟨true, true⟩⟩, ⟨"refreshToken", r, ⟨true, true⟩⟩]
               cleared := []
               json := { statusCode := 200, data := .tokens a r,
                         message := "Access token refreshed", success := true } },
          save s { user with refreshToken := some r }) ∧
      storedRefreshToken (refreshAccessToken env c s req).2 user._id = some (some r) ∧
      ∀ j, j ≠ user._id →
        findById (refreshAccessToken env c s req).2 (some j) = findById s (some j) := by
  have hid : decodedId = some user._id := findById_id huser
  have huser' : findById s (some user._id) = some user := hid ▸ huser
  have h := refreshAccessToken_match env c s req token decodedId user a r hin hne hver
    hdb0 hdb1 hdb2 huser hstored ha hr
  refine ⟨h, ?_, ?_⟩
  · rw [h]
    exact storedRefreshToken_save s user r huser'
  · intro j hj
    rw [h]
    have := findById_save s { user with refreshToken := some r } j
    simpa [hj] using this

/-- C2 at a concrete input: alice presents her stored token at second 5. -/
theorem refreshAccessToken_rotates_witness :
    refreshAccessToken demoEnv (calmCall 5) demoStore (refreshRequest (demoSign 'R' 1 3)) =
        (.ok { status := 200
               cookies := [⟨"accessToken", demoSign 'A' 1 5, ⟨true, true⟩⟩,
                           ⟨"refreshToken", demoSign 'R' 1 5, ⟨true, true⟩⟩]
               cleared := []
               json := { statusCode := 200,
                         data := .tokens (demoSign 'A' 1 5) (demoSign 'R' 1 5),
                         message := "Access token refreshed", success := true } },
          save demoStore { alice with refreshToken := some (demoSign 'R' 1 5) }) ∧
      storedRefreshToken (refreshAccessToken demoEnv (calmCall 5) demoStore
        (refreshRequest (demoSign 'R' 1 3))).2 alice._id = some (some (demoSign 'R' 1 5)) ∧
      ∀ j, j ≠ alice._id →
        findById (refreshAccessToken demoEnv (calmCall 5) demoStore
          (refreshRequest (demoSign 'R' 1 3))).2 (some j) = findById demoStore (some j) :=
  refreshAccessToken_rotates demoEnv (calmCall 5) demoStore
    (refreshRequest (demoSign 'R' 1 3)) (demoSign 'R' 1 3) (some 1) alice
    (demoSign 'A' 1 5) (demoSign 'R' 1 5)
    (by decide) (by decide) (by decide) rfl rfl rfl (by decide) (by decide) rfl rfl

/-! ## Login -/

/-- In a collection with unique ids, loading a stored document by its id returns it. -/
theorem findById_of_mem {s : Store} (hs : UniqueIds s) {u : UserDoc} (hu : u ∈ s) :
    findById s (some u._id) = some u := by
  induction s with
  | nil => simp at hu
  | cons d ds ih =>
    have hp := List.pairwise_cons.mp hs
    simp only [findById, List.find?_cons]
    rcases List.mem_cons.mp hu with h | h
    · subst h
      simp
    · have hne : d._id ≠ u._id := hp.1 u h
      have hne' : (d._id == u._id) = false := by simpa using hne
      simp only [hne']
      exact ih hp.2 h

/-- A login with a matching user and a verifying password, when neither the issuer nor the
store throws. -/
theorem loginUser_success (env : Env) (c : Call) (s : Store) (req : Request)
    (user : UserDoc) (a r : String)
    (hs : UniqueIds s)
    (hkey : truthy req.body.username = true ∨ truthy req.body.email = true)
    (hdb : ∀ k, c.dbFault k = none)
    (hfind : findOne s req.body.username req.body.email = some user)
    (hpw : env.compare req.body.password user.password = .ok true)
    (ha : env.signAccess (user.select ["password", "refreshToken"]) c.now = .ok a)
    (hr : env.signRefresh user._id c.now = .ok r) :
    loginUser env c s req =
      (.ok { status := 200
             cookies := [⟨"accessToken", a, ⟨true, true⟩⟩, ⟨"refreshToken", r, ⟨true, true⟩⟩]
             cleared := []
             json := { statusCode := 200
                       data := .login (some (user.select ["password", "refreshToken"])) a r
                       message := "User logged in successfully", success := true } },
        save s { user with refreshToken := some r }) := by
  have hload : findById s (some user._id) = some user :=
    findById_of_mem hs (List.mem_of_find?_eq_some hfind)
  have hgen := generateAccessAndRefreshTokens_ok env c 1 s user a r hload (hdb 1) (hdb 2) ha hr
  have hguard : (!truthy req.body.username && !truthy req.body.email) = false := by
    rcases hkey with h | h <;> simp [h]
  have hafter := findById_save s { user with refreshToken := some r } user._id
  simp only [if_true, hload, Option.map_some'] at hafter
  simp [loginUser, hguard, hdb 0, hdb 3, hfind, UserDoc.isPasswordCorrect, hpw, hgen, hafter,
    ApiResponse.new, options, UserDoc.select]

/-- C3. Successful `loginUser`: when a user matches the given username or email and the
password verifies (and neither the issuer nor the store throws), the handler answers 200
with `success = true` and the signed access and refresh token; the cookies it sets are
`accessToken` and `refreshToken`, both `httpOnly` and `secure`; and the user's stored
refresh token is afterwards the returned one, whatever was stored before. -/
theorem loginUser_issues_and_stores (env : Env) (c : Call) (s : Store) (req : Request)
    (user : UserDoc) (a r : String)
    (hs : UniqueIds s)
    (hkey : truthy req.body.username = true ∨ truthy req.body.email = true)
    (hdb : ∀ k, c.dbFault k = none)
    (hfind : findOne s req.body.username req.body.email = some user)
    (hpw : env.compare req.body.password user.password = .ok true)
    (ha : env.signAccess (user.select ["password", "refreshToken"]) c.now = .ok a)
    (hr : env.signRefresh user._id c.now = .ok r) :
    ∃ resp s', loginUser env c s req = (.ok resp, s') ∧
      resp.status = 200 ∧ resp.json.statusCode = 200 ∧ resp.json.success = true ∧
      resp.json.data = .login (some (user.select ["password", "refreshToken"])) a r ∧
      resp.cookies = [{ name := "accessToken", value := a,
                        options := { httpOnly := true, secure := true } },
                      { name := "refreshToken", value := r,
                        options := { httpOnly := true, secure := true } }] ∧
      storedRefreshToken s' user._id = some (some r) := by
  have hload : findById s (some user._id) = some user :=
    findById_of_mem hs (List.mem_of_find?_eq_some hfind)
  refine ⟨_, _, loginUser_success env c s req user a r hs hkey hdb hfind hpw ha hr,
    rfl, rfl, rfl, rfl, rfl, ?_⟩
  exact storedRefreshToken_save s user r hload

/-- C3 at a concrete input: bob, who stores no token, logs in at second 7. -/
theorem loginUser_issues_and_stores_witness :
    ∃ resp s', loginUser demoEnv (calmCall 7) demoStore (loginRequest "bob" "hunter2") =
        (.ok resp, s') ∧
      resp.status = 200 ∧ resp.json.statusCode = 200 ∧ resp.json.success = true ∧
      resp.json.data = .login (some (bob.select ["password", "refreshToken"]))
        (demoSign 'A' 2 7) (demoSign 'R' 2 7) ∧
      resp.cookies = [{ name := "accessToken", value := demoSign 'A' 2 7,
                        options := { httpOnly := true, secure := true } },
                      { name := "refreshToken", value := demoSign 'R' 2 7,
                        options := { httpOnly := true, secure := true } }] ∧
      storedRefreshToken s' bob._id = some (some (demoSign 'R' 2 7)) :=
  loginUser_issues_and_stores demoEnv (calmCall 7) demoStore (loginRequest "bob" "hunter2")
    bob (demoSign 'A' 2 7) (demoSign 'R' 2 7)
    (by decide) (Or.inl (by decide)) (fun _ => rfl) (by decide) (by decide) rfl rfl

/-- C7. Failing `loginUser`: for a request that supplies a username or an email, if no user
matches either key the handler throws the 404 error "User not found", and if a user matches
but the password does not verify it throws the 401 error "Invalid credentials"; in both
cases no response (so no token) is sent and the store is as before. -/
theorem loginUser_rejects (env : Env) (c : Call) (s : Store) (req : Request)
    (hkey : truthy req.body.username = true ∨ truthy req.body.email = true)
    (hdb : c.dbFault 0 = none) :
    (findOne s req.body.username req.body.email = none →
        loginUser env c s req = (.error (.api ⟨404, "User not found"⟩), s)) ∧
      (∀ user, findOne s req.body.username req.body.email = some user →
        env.compare req.body.password user.password = .ok false →
        loginUser env c s req = (.error (.api ⟨401, "Invalid credentials"⟩), s) ∧
          storedRefreshToken (loginUser env c s req).2 user._id =
            storedRefreshToken s user._id) := by
  have hguard : (!truthy req.body.username && !truthy req.body.email) = false := by
    rcases hkey with h | h <;> simp [h]
  constructor
  · intro hfind
    simp [loginUser, hguard, hdb, hfind]
  · intro user hfind hpw
    have h : loginUser env c s req = (.error (.api ⟨401, "Invalid credentials"⟩), s) := by
      simp [loginUser, hguard, hdb, hfind, UserDoc.isPasswordCorrect, hpw]
    exact ⟨h, by rw [h]⟩

/-- C7 at concrete inputs: an unknown username, and alice with a wrong password. -/
theorem loginUser_rejects_witness :
    loginUser demoEnv (calmCall 7) demoStore (loginRequest "carol" "pw") =
        (.error (.api ⟨404, "User not found"⟩), demoStore) ∧
      loginUser demoEnv (calmCall 7) demoStore (loginRequest "alice" "wrong") =
        (.error (.api ⟨401, "Invalid credentials"⟩), demoStore) :=
  ⟨(loginUser_rejects demoEnv (calmCall 7) demoStore (loginRequest "carol" "pw")
      (Or.inl (by decide)) rfl).1 (by decide),
   ((loginUser_rejects demoEnv (calmCall 7) demoStore (loginRequest "alice" "wrong")
      (Or.inl (by decide)) rfl).2 alice (by decide) (by decide)).1⟩

/-! ## Rotation and single use -/

/-- C5, evaluated where it fails. Alice's stored refresh token was issued at second 3. A
refresh that presents it within second 3 succeeds, returns that same token and stores it
again: nothing has rotated. A refresh that presents it at second 5 returns and stores a
different token. -/
theorem refreshAccessToken_same_second_reissue :
    incomingRefreshToken (refreshRequest (demoSign 'R' 1 3)) = some (demoSign 'R' 1 3) ∧
      refreshAccessToken demoEnv (calmCall 3) demoStore (refreshRequest (demoSign 'R' 1 3)) =
        (.ok { status := 200
               cookies := [⟨"accessToken", demoSign 'A' 1 3, ⟨true, true⟩⟩,
                           ⟨"refreshToken", demoSign 'R' 1 3, ⟨true, true⟩⟩]
               cleared := []
               json := { statusCode := 200,
                         data := .tokens (demoSign 'A' 1 3) (demoSign 'R' 1 3),
                         message := "Access token refreshed", success := true } },
          demoStore) ∧
      refreshAccessToken demoEnv (calmCall 5) demoStore (refreshRequest (demoSign 'R' 1 3)) =
        (.ok (refreshResponse (demoSign 'A' 1 5) (demoSign 'R' 1 5)),
          [{ alice with refreshToken := some (demoSign 'R' 1 5) }, bob]) ∧
      demoSign 'R' 1 5 ≠ demoSign 'R' 1 3 := by
  decide

/-- C4, evaluated where it fails. Bob logs in at second 7 and receives a refresh token. A
refresh within the same second succeeds and re-issues that very token, so a second refresh
that presents it, one second later, succeeds as well instead of failing with 401. When the
first refresh comes at second 8 instead, the second one is rejected with the 401 error
"Refresh token expired or already used". -/
theorem login_token_same_second_replay :
    loginUser demoEnv (calmCall 7) demoStore (loginRequest "bob" "hunter2") =
        (.ok (loginResponse bob (demoSign 'A' 2 7) (demoSign 'R' 2 7)),
          [alice, { bob with refreshToken := some (demoSign 'R' 2 7) }]) ∧
      refreshAccessToken demoEnv (calmCall 7)
          [alice, { bob with refreshToken := some (demoSign 'R' 2 7) }]
          (refreshRequest (demoSign 'R' 2 7)) =
        (.ok (refreshResponse (demoSign 'A' 2 7) (demoSign 'R' 2 7)),
          [alice, { bob with refreshToken := some (demoSign 'R' 2 7) }]) ∧
      refreshAccessToken demoEnv (calmCall 8)
          [alice, { bob with refreshToken := some (demoSign 'R' 2 7) }]
          (refreshRequest (demoSign 'R' 2 7)) =
        (.ok (refreshResponse (demoSign 'A' 2 8) (demoSign 'R' 2 8)),
          [alice, { bob with refreshToken := some (demoSign 'R' 2 8) }]) ∧
      refreshAccessToken demoEnv (calmCall 9)
          [alice, { bob with refreshToken := some (demoSign 'R' 2 8) }]
          (refreshRequest (demoSign 'R' 2 7)) =
        (.error (.api ⟨401, "Refresh token expired or already used"⟩),
          [alice, { bob with refreshToken := some (demoSign 'R' 2 8) }]) := by
  decide

/-! ## Logout -/

/-- C6. Revocation by `logoutUser`: after a logout of a user that stored the refresh token
`token`, the stored field is absent (it holds no string, in particular not the empty one),
and a later refresh that presents `token` (a token that, when it verifies, names this user)
throws a 401 error and leaves the store as the logout left it, whatever the circumstances
of that refresh. -/
theorem logoutUser_revokes (env : Env) (c c' : Call) (s : Store) (req req' : Request)
    (v : UserView) (user : UserDoc) (token : String)
    (hreq : req.user = some v) (hdb : c.dbFault 0 = none)
    (huser : findById s (some v._id) = some user)
    (hstored : user.refreshToken = some token)
    (hin : incomingRefreshToken req' = some token)
    (hsub : ∀ i, env.verifyRefresh token c'.now = .ok i → i = some v._id) :
    ∃ resp s₁, logoutUser c s req = (.ok resp, s₁) ∧ resp.json.statusCode = 200 ∧
      findById s₁ (some v._id) = some { user with refreshToken := none } ∧
      storedRefreshToken s₁ v._id = some none ∧
      ∃ m, refreshAccessToken env c' s₁ req' = (.error (.api ⟨401, m⟩), s₁) := by
  have hafter : findById (unsetRefreshToken s v._id) (some v._id) =
      some { user with refreshToken := none } := by
    have h := findById_unsetRefreshToken s v._id v._id
    simpa [huser] using h
  have hout : logoutUser c s req =
      (.ok { status := 200
             cookies := []
             cleared := [("accessToken", options), ("refreshToken", options)]
             json := ApiResponse.new 200 .empty (some "User logged out successfully") },
        unsetRefreshToken s v._id) := by
    simp [logoutUser, hreq, hdb]
  refine ⟨_, unsetRefreshToken s v._id, hout, rfl, hafter,
    by simp [storedRefreshToken, hafter], ?_⟩
  apply refreshAccessToken_rejects
  intro token' decodedId user' hin' hver hload
  have htok : token' = token := by
    rw [hin] at hin'
    exact (Option.some.inj hin').symm
  subst htok
  have hid := hsub decodedId hver
  subst hid
  rw [hafter] at hload
  have hu := Option.some.inj hload
  subst hu
  simp

/-- C6 at a concrete input: alice logs out, then presents the token she stored. -/
theorem logoutUser_revokes_witness :
    ∃ resp s₁, logoutUser (calmCall 4) demoStore (authedRequest alice emptyBody) =
        (.ok resp, s₁) ∧ resp.json.statusCode = 200 ∧
      findById s₁ (some 1) = some { alice with refreshToken := none } ∧
      storedRefreshToken s₁ 1 = some none ∧
      ∃ m, refreshAccessToken demoEnv (calmCall 5) s₁ (refreshRequest (demoSign 'R' 1 3)) =
        (.error (.api ⟨401, m⟩), s₁) :=
  logoutUser_revokes demoEnv (calmCall 4) (calmCall 5) demoStore
    (authedRequest alice emptyBody) (refreshRequest (demoSign 'R' 1 3))
    (alice.select ["password", "refreshToken"]) alice (demoSign 'R' 1 3)
    rfl rfl (by decide) (by decide) (by decide)
    (fun i h => demoVerify_demoSign 'R' 10 1 3 5 i h)

/-! ## Password change -/

/-- C8, as stated, fails: alice changes her password with a wrong old password and the
handler throws an error of status 400, not 401. -/
theorem changeCurrentPassword_status_counterexample :
    changeCurrentPassword demoEnv (calmCall 6) demoStore
        (authedRequest alice (passwordBody "wrong" "new")) =
      (.error (.api ⟨400, "Invalid old password"⟩), demoStore) := by
  decide

/-- C8, amended. `changeCurrentPassword` with an old password that does not verify against
the stored hash of the authenticated user throws the error "Invalid old password" of status
400, and the store, hence the stored password hash, is as before. -/
theorem changeCurrentPassword_wrong_old (env : Env) (c : Call) (s : Store) (req : Request)
    (user : UserDoc)
    (hdb : c.dbFault 0 = none)
    (huser : findById s (req.user.map (fun v => v._id)) = some user)
    (hpw : env.compare req.body.oldPassword user.password = .ok false) :
    changeCurrentPassword env c s req = (.error (.api ⟨400, "Invalid old password"⟩), s) ∧
      storedPassword (changeCurrentPassword env c s req).2 user._id =
        storedPassword s user._id := by
  have h : changeCurrentPassword env c s req =
      (.error (.api ⟨400, "Invalid old password"⟩), s) := by
    simp [changeCurrentPassword, hdb, huser, UserDoc.isPasswordCorrect, hpw]
  exact ⟨h, by rw [h]⟩

/-- C8, amended, at a concrete input: alice with a wrong old password. -/
theorem changeCurrentPassword_wrong_old_witness :
    changeCurrentPassword demoEnv (calmCall 6) demoStore
        (authedRequest alice (passwordBody "wrong" "new")) =
        (.error (.api ⟨400, "Invalid old password"⟩), demoStore) ∧
      storedPassword (changeCurrentPassword demoEnv (calmCall 6) demoStore
        (authedRequest alice (passwordBody "wrong" "new"))).2 alice._id =
        storedPassword demoStore alice._id :=
  changeCurrentPassword_wrong_old demoEnv (calmCall 6) demoStore
    (authedRequest alice (passwordBody "wrong" "new")) alice rfl (by decide) (by decide)

/-- What `changeCurrentPassword` leaves in the store: the store as it was, or the store
with the loaded user saved under a new password hash. -/
theorem changeCurrentPassword_store (env : Env) (c : Call) (s : Store) (req : Request) :
    (changeCurrentPassword env c s req).2 = s ∨
      ∃ user hashed, findById s (some user._id) = some user ∧
        (changeCurrentPassword env c s req).2 = save s { user with password := hashed } := by
  cases hdb : c.dbFault 0 with
  | some m => exact Or.inl (by simp [changeCurrentPassword, hdb])
  | none =>
    cases huser : findById s (req.user.map (fun v => v._id)) with
    | none => exact Or.inl (by simp [changeCurrentPassword, hdb, huser])
    | some user =>
      have hid := findById_id huser
      cases hpw : user.isPasswordCorrect env req.body.oldPassword with
      | error m => exact Or.inl (by simp [changeCurrentPassword, hdb, huser, hpw])
      | ok b =>
        cases b with
        | false => exact Or.inl (by simp [changeCurrentPassword, hdb, huser, hpw])
        | true =>
          cases hh : preSaveHash env c req.body.newPassword with
          | error m => exact Or.inl (by simp [changeCurrentPassword, hdb, huser, hpw, hh])
          | ok hashed =>
            cases hdb1 : c.dbFault 1 with
            | some m =>
              exact Or.inl (by simp [changeCurrentPassword, hdb, huser, hpw, hh, hdb1])
            | none =>
              exact Or.inr ⟨user, hashed, hid ▸ huser,
                by simp [changeCurrentPassword, hdb, huser, hpw, hh, hdb1]⟩

/-- Saving a loaded user under a new password hash changes no document outside its
password. -/
theorem findById_save_password (s : Store) (user : UserDoc) (hashed : String)
    (huser : findById s (some user._id) = some user) (i : Option ObjectId) :
    (findById (save s { user with password := hashed }) i).map
        (fun d => ({ d with password := "" } : UserDoc)) =
      (findById s i).map (fun d => ({ d with password := "" } : UserDoc)) := by
  cases i with
  | none => rfl
  | some j =>
    have h := findById_save s { user with password := hashed } j
    by_cases hj : j = user._id
    · subst hj
      simp only [if_true] at h
      rw [h, huser]
      rfl
    · simp only [hj, if_false] at h
      rw [h]

/-- Two documents that agree outside the password have the same id, the same refresh token
and the same claims. -/
theorem forget_password_eq {u u' : UserDoc}
    (h : ({ u' with password := "" } : UserDoc) = { u with password := "" }) :
    u'._id = u._id ∧ u'.refreshToken = u.refreshToken ∧
      u'.select ["password", "refreshToken"] = u.select ["password", "refreshToken"] := by
  cases u
  cases u'
  simp only [UserDoc.mk.injEq] at h
  obtain ⟨h1, h2, h3, h4, h5, h6, _, h8⟩ := h
  subst h1 h2 h3 h4 h5 h6 h8
  exact ⟨rfl, rfl, by simp [UserDoc.select]⟩

/-- The outcome of the token generation does not depend on the stored password hashes. -/
theorem generateAccessAndRefreshTokens_congr (env : Env) (c : Call) (k : Nat) (s s' : Store)
    (userId : ObjectId)
    (hsame : ∀ i, (findById s' i).map (fun d => ({ d with password := "" } : UserDoc)) =
      (findById s i).map (fun d => ({ d with password := "" } : UserDoc))) :
    (generateAccessAndRefreshTokens env c k s' userId).1 =
      (generateAccessAndRefreshTokens env c k s userId).1 := by
  have hs := hsame (some userId)
  cases hdb : c.dbFault k with
  | some m => simp [generateAccessAndRefreshTokens, generateTokensTry, hdb]
  | none =>
    cases hu : findById s (some userId) with
    | none =>
      cases hu' : findById s' (some userId) with
      | none => simp [generateAccessAndRefreshTokens, generateTokensTry, hdb, hu, hu']
      | some u' => simp [hu, hu'] at hs
    | some u =>
      cases hu' : findById s' (some userId) with
      | none => simp [hu, hu'] at hs
      | some u' =>
        simp only [hu, hu', Option.map_some', Option.some.injEq] at hs
        obtain ⟨hid, _, hsel⟩ := forget_password_eq hs
        simp only [generateAccessAndRefreshTokens, generateTokensTry, hdb, hu, hu',
          UserDoc.generateAccessToken, UserDoc.generateRefreshToken, hid, hsel]
        cases env.signAccess (u.select ["password", "refreshToken"]) c.now with
        | error m => rfl
        | ok a =>
          cases env.signRefresh u._id c.now with
          | error m => rfl
          | ok r =>
            cases c.dbFault (k + 1) with
            | some m => rfl
            | none => rfl

/-- The outcome of a refresh does not depend on the stored password hashes. -/
theorem refreshAccessToken_congr (env : Env) (c : Call) (s s' : Store) (req : Request)
    (hsame : ∀ i, (findById s' i).map (fun d => ({ d with password := "" } : UserDoc)) =
      (findById s i).map (fun d => ({ d with password := "" } : UserDoc))) :
    (refreshAccessToken env c s' req).1 = (refreshAccessToken env c s req).1 := by
  cases hin : incomingRefreshToken req with
  | none => simp [refreshAccessToken, hin]
  | some token =>
    by_cases hne : token = ""
    · simp [refreshAccessToken, hin, hne]
    · have key : (refreshTry env c s' token).1 = (refreshTry env c s token).1 := by
        cases hver : env.verifyRefresh token c.now with
        | error m => simp [refreshTry, hver]
        | ok decodedId =>
          cases hdb : c.dbFault 0 with
          | some m => simp [refreshTry, hver, hdb]
          | none =>
            have hs := hsame decodedId
            cases hu : findById s decodedId with
            | none =>
              cases hu' : findById s' decodedId with
              | none => simp [refreshTry, hver, hdb, hu, hu']
              | some u' => simp [hu, hu'] at hs
            | some u =>
              cases hu' : findById s' decodedId with
              | none => simp [hu, hu'] at hs
              | some u' =>
                simp only [hu, hu', Option.map_some', Option.some.injEq] at hs
                obtain ⟨hid, hrt, _⟩ := forget_password_eq hs
                have hgen := generateAccessAndRefreshTokens_congr env c 1 s s' u._id hsame
                simp only [refreshTry, hver, hdb, hu, hu', hid, hrt]
                by_cases hst : some token = u.refreshToken
                · simp only [hst, ne_eq, not_true_eq_false, if_false]
                  cases h1 : generateAccessAndRefreshTokens env c 1 s u._id with
                  | mk o₁ t₁ =>
                    cases h2 : generateAccessAndRefreshTokens env c 1 s' u._id with
                    | mk o₂ t₂ =>
                      simp only [h1, h2] at hgen
                      subst hgen
                      cases o₂ with
                      | error e => rfl
                      | ok tokens => rfl
                · simp [hst]
      simp only [refreshAccessToken, hin, hne, if_false]
      cases h1 : refreshTry env c s token with
      | mk o₁ t₁ =>
        cases h2 : refreshTry env c s' token with
        | mk o₂ t₂ =>
          simp only [h1, h2] at key
          subst key
          cases o₂ with
          | error e => rfl
          | ok resp => rfl

/-- C10. `changeCurrentPassword` never touches the session: whether it succeeds or throws,
the stored refresh token of every user is afterwards what it was (the same string, or
absent), and any refresh request has afterwards the outcome it would have had before, so
a refresh token that was accepted before the password change is still accepted. -/
theorem changeCurrentPassword_keeps_session (env : Env) (c : Call) (s : Store)
    (req : Request) :
    (∀ id, storedRefreshToken (changeCurrentPassword env c s req).2 id =
        storedRefreshToken s id) ∧
      ∀ (c' : Call) (req' : Request),
        (refreshAccessToken env c' (changeCurrentPassword env c s req).2 req').1 =
          (refreshAccessToken env c' s req').1 := by
  have hsame : ∀ i,
      (findById (changeCurrentPassword env c s req).2 i).map
          (fun d => ({ d with password := "" } : UserDoc)) =
        (findById s i).map (fun d => ({ d with password := "" } : UserDoc)) := by
    intro i
    rcases changeCurrentPassword_store env c s req with h | ⟨user, hashed, huser, h⟩
    · rw [h]
    · rw [h]
      exact findById_save_password s user hashed huser i
  constructor
  · intro id
    have h := congrArg (Option.map (fun d : UserDoc => d.refreshToken)) (hsame (some id))
    simpa [storedRefreshToken, Option.map_map, Function.comp] using h
  · intro c' req'
    exact refreshAccessToken_congr env c' s _ req' hsame

/-- A password change with the right old password succeeds and stores the new hash: alice
changes `pw` to `new`. -/
theorem changeCurrentPassword_demo :
    changeCurrentPassword demoEnv (calmCall 6) demoStore
        (authedRequest alice (passwordBody "pw" "new")) =
      (.ok { status := 200, cookies := [], cleared := []
             json := { statusCode := 200, data := .empty,
                       message := "Password changed successfully", success := true } },
        [{ alice with password := "s$new" }, bob]) := by
  decide

/-! ## Failures of the token generation -/

/-- In `loginUser` a failing token generation surfaces as it was thrown: the error of
status 500 with the fixed message, and nothing is written. -/
theorem loginUser_generation_failure (env : Env) (c : Call) (s : Store) (req : Request)
    (user : UserDoc) (e : ApiError) (s' : Store)
    (hkey : truthy req.body.username = true ∨ truthy req.body.email = true)
    (hdb : c.dbFault 0 = none)
    (hfind : findOne s req.body.username req.body.email = some user)
    (hpw : env.compare req.body.password user.password = .ok true)
    (hgen : generateAccessAndRefreshTokens env c 1 s user._id = (.error e, s')) :
    loginUser env c s req =
      (.error (.api ⟨500, "Something went wrong while generating tokens"⟩), s) := by
  obtain ⟨he, hs'⟩ := generateAccessAndRefreshTokens_error env c 1 s user._id e s' hgen
  subst he hs'
  have hguard : (!truthy req.body.username && !truthy req.body.email) = false := by
    rcases hkey with h | h <;> simp [h]
  simp [loginUser, hguard, hdb, hfind, UserDoc.isPasswordCorrect, hpw, hgen]

/-- In `refreshAccessToken` a failing token generation is caught by the handler's own
`catch` and thrown again with status 401; the message is the fixed one. -/
theorem refreshAccessToken_generation_failure (env : Env) (c : Call) (s : Store)
    (req : Request) (token : String) (decodedId : Option ObjectId) (user : UserDoc)
    (e : ApiError) (s' : Store)
    (hin : incomingRefreshToken req = some token) (hne : token ≠ "")
    (hver : env.verifyRefresh token c.now = .ok decodedId)
    (hdb : c.dbFault 0 = none)
    (huser : findById s decodedId = some user)
    (hstored : user.refreshToken = some token)
    (hgen : generateAccessAndRefreshTokens env c 1 s user._id = (.error e, s')) :
    refreshAccessToken env c s req =
      (.error (.api ⟨401, "Something went wrong while generating tokens"⟩), s) := by
  obtain ⟨he, hs'⟩ := generateAccessAndRefreshTokens_error env c 1 s user._id e s' hgen
  subst he hs'
  simp [refreshAccessToken, refreshTry, hin, hne, hver, hdb, huser, hstored, hgen,
    Thrown.message]

/-- C9, evaluated where it fails. Alice presents her stored refresh token and the token
generation fails (its lookup throws, its save throws, or the signing throws): each time
`refreshAccessToken` throws status 401 with the fixed message of the generation, not 500.
In `loginUser` the same failure surfaces with status 500. -/
theorem generation_failure_status_in_refresh :
    refreshAccessToken demoEnv (faultyCall 5 1) demoStore (refreshRequest (demoSign 'R' 1 3)) =
        (.error (.api ⟨401, "Something went wrong while generating tokens"⟩), demoStore) ∧
      refreshAccessToken demoEnv (faultyCall 5 2) demoStore
          (refreshRequest (demoSign 'R' 1 3)) =
        (.error (.api ⟨401, "Something went wrong while generating tokens"⟩), demoStore) ∧
      refreshAccessToken brokenEnv (calmCall 5) demoStore (refreshRequest (demoSign 'R' 1 3)) =
        (.error (.api ⟨401, "Something went wrong while generating tokens"⟩), demoStore) ∧
      loginUser demoEnv (faultyCall 7 2) demoStore (loginRequest "bob" "hunter2") =
        (.error (.api ⟨500, "Something went wrong while generating tokens"⟩), demoStore) := by
  decide

/-! ## The response envelope -/

/-- C12. Response envelope: for every integer `statusCode`, every data value and every
message, `new ApiResponse(statusCode, data, message)` is the record of the four fields
`statusCode`, `data`, `message`, `success` that holds the three arguments unchanged, the
message being "Success" when it is omitted, and its `success` is true exactly when
`statusCode < 400`. -/
theorem ApiResponse_new_envelope {α : Type} (statusCode : Int) (data : α) (message : String) :
    ApiResponse.new statusCode data (some message) =
        { statusCode := statusCode, data := data, message := message,
          success := decide (statusCode < 400) } ∧
      ApiResponse.new statusCode data none =
        { statusCode := statusCode, data := data, message := "Success",
          success := decide (statusCode < 400) } ∧
      ((ApiResponse.new statusCode data (some message)).success = true ↔ statusCode < 400) ∧
      ((ApiResponse.new statusCode data none).success = true ↔ statusCode < 400) := by
  refine ⟨rfl, rfl, ?_, ?_⟩ <;> simp [ApiResponse.new]

/-- The envelope at the boundary: 399 is a success, 400 and 401 are not, and a negative
status is one. -/
theorem ApiResponse_new_boundary :
    (ApiResponse.new 399 () none).success = true ∧
      (ApiResponse.new 400 () none).success = false ∧
      (ApiResponse.new 401 () (some "Unauthorized request")).success = false ∧
      (ApiResponse.new (-1) () none).success = true := by
  decide

/-! ## Exposed user records -/

/-- The projection `.select("-password -refreshToken")` holds neither field. -/
theorem select_both_hides (u : UserDoc) :
    (u.select ["password", "refreshToken"]).password = none ∧
      (u.select ["password", "refreshToken"]).refreshToken = none := by
  simp [UserDoc.select]

/-- The projection `.select("-password")` drops the password and keeps the stored refresh
token. -/
theorem select_password_keeps_refreshToken (u : UserDoc) :
    (u.select ["password"]).password = none ∧
      (u.select ["password"]).refreshToken = u.refreshToken := by
  simp [UserDoc.select]

/-- The user that `verifyJWT` attaches to the request holds neither the password hash nor
the refresh token. -/
theorem verifyJWT_user_hides (env : AuthEnv) (c : Call) (s : Store) (req req' : Request)
    (parts : ProfileParts) (h : verifyJWT env c s req parts = .ok req') :
    ∃ v, req'.user = some v ∧ v.password = none ∧ v.refreshToken = none := by
  unfold verifyJWT at h
  simp only at h
  split at h
  · rename_i r hr
    simp only [Except.ok.injEq] at h
    subst h
    split at hr
    · simp at hr
    · rename_i t _
      split at hr
      · simp at hr
      · unfold verifyTry at hr
        split at hr
        · simp at hr
        · split at hr
          · simp at hr
          · split at hr
            · simp at hr
            · rename_i v hv
              simp only [Except.ok.injEq] at hr
              subst hr
              cases hf : findById s ‹Option ObjectId› with
              | none => simp [hf] at hv
              | some d =>
                simp only [hf, Option.map_some', Option.some.injEq] at hv
                subst hv
                exact ⟨_, rfl, select_both_hides d⟩
  · simp at h

/-- The record that `GET /current-user` returns holds neither field. -/
theorem currentUserRoute_hides (env : AuthEnv) (c : Call) (s s' : Store) (req : Request)
    (parts : ProfileParts) (resp : Response)
    (h : currentUserRoute env c s req parts = (.ok resp, s')) :
    ∃ v, resp.userRecord = some v ∧ v.password = none ∧ v.refreshToken = none := by
  unfold currentUserRoute at h
  cases hv : verifyJWT env c s req parts with
  | error e => simp [hv] at h
  | ok req' =>
    simp only [hv, Prod.mk.injEq, Except.ok.injEq] at h
    obtain ⟨v, hu, hp, hr⟩ := verifyJWT_user_hides env c s req req' parts hv
    refine ⟨v, ?_, hp, hr⟩
    rw [← h.1]
    simp [Response.userRecord, getCurrentUser, ApiResponse.new, hu]

/-- The record that `loginUser` returns, when it returns one, holds neither field. -/
theorem loginUser_hides (env : Env) (c : Call) (s s' : Store) (req : Request)
    (resp : Response) (v : UserView)
    (h : loginUser env c s req = (.ok resp, s')) (hv : resp.userRecord = some v) :
    v.password = none ∧ v.refreshToken = none := by
  unfold loginUser at h
  simp only at h
  split at h
  · simp at h
  · split at h
    · simp at h
    · split at h
      · simp at h
      · split at h
        · simp at h
        · split at h
          · simp at h
          · split at h
            · simp at h
            · split at h
              · simp at h
              · simp only [Prod.mk.injEq, Except.ok.injEq] at h
                obtain ⟨h1, _⟩ := h
                subst h1
                simp only [Response.userRecord, ApiResponse.new] at hv
                rename_i s'' _ _ _ _
                cases hf : findById s'' (some ‹UserDoc›._id) with
                | none => simp [hf] at hv
                | some d =>
                  simp only [hf, Option.map_some', Option.some.injEq] at hv
                  subst hv
                  exact select_both_hides d

/-- The record that `registerUser` returns holds neither field. -/
theorem registerUser_hides (env : Env) (toLowerCase : String → String) (fx : Effects)
    (c : Call) (s s' : Store) (req : Request) (parts : ProfileParts) (resp : Response)
    (h : registerUser env toLowerCase fx c s req parts = (.ok resp, s')) :
    ∃ v, resp.userRecord = some v ∧ v.password = none ∧ v.refreshToken = none := by
  unfold registerUser at h
  simp only at h
  repeat' split at h
  all_goals first
    | (simp at h; done)
    | skip
  all_goals
    rename_i createdUser hcreated
    simp only [Prod.mk.injEq, Except.ok.injEq] at h
    obtain ⟨h1, _⟩ := h
    subst h1
    refine ⟨createdUser, by simp [Response.userRecord, ApiResponse.new], ?_⟩
    simp only [Option.map_eq_some'] at hcreated
    obtain ⟨d, _, hd⟩ := hcreated
    subst hd
    exact select_both_hides d

/-- Registration at concrete inputs: a full name that is one no-break space is rejected
with 400 and nothing is stored; with the full name `Carol C` the user is stored under the
lowered username and the record returned carries neither password nor refresh token. -/
theorem registerUser_demo :
    registerUser demoEnv asciiLower demoEffects (calmCall 2) demoStore registerRequest
        (registerParts (String.mk [Char.ofNat 0xA0])) =
      (.error (.api ⟨400, "All fields are required"⟩), demoStore) ∧
    registerUser demoEnv asciiLower demoEffects (calmCall 2) demoStore registerRequest
        (registerParts "Carol C") =
      (.ok { status := 201, cookies := [], cleared := []
             json := { statusCode := 200
                       data := .user (some
                         { _id := 3, username := "carol", email := "carol@x.com",
                           fullName := "Carol C", avatar := "cdn/new.png", coverImage := "",
                           password := none, refreshToken := none })
                       message := "User registered successfully", success := true } },
        [alice, bob,
         { _id := 3, username := "carol", email := "carol@x.com", fullName := "Carol C",
           avatar := "cdn/new.png", coverImage := "", password := "s$pw3",
           refreshToken := none }]) := by
  decide

/-- The document that `findByIdAndUpdate(...).select("-password")` returns for a stored
user: the password is dropped, the stored refresh token is kept. -/
theorem findByIdAndUpdate_view (s : Store) (i : ObjectId) (u : UserDoc)
    (set : UserDoc → UserDoc)
    (hset : ∀ d, (set d)._id = d._id ∧ (set d).refreshToken = d.refreshToken)
    (hu : findById s (some i) = some u) :
    ∃ w, (findByIdAndUpdate s (some i) set).2 = some w ∧ w.password = none ∧
      w.refreshToken = u.refreshToken ∧
      storedRefreshToken (findByIdAndUpdate s (some i) set).1 i = some u.refreshToken := by
  have hid : u._id = i := by
    have := findById_id hu
    simp only [Option.some.injEq] at this
    exact this.symm
  have h := findById_updateFirst set i i (fun d hd => by rw [(hset d).1, hd]) s
  simp only [if_true, hu, Option.map_some'] at h
  refine ⟨(set u).select ["password"], ?_, ?_, ?_, ?_⟩
  · simp [findByIdAndUpdate, h]
  · simp [UserDoc.select]
  · simp [UserDoc.select, (hset u).2]
  · simp [findByIdAndUpdate, storedRefreshToken, h, (hset u).2]

/-- The record that `updateAccountDetails` returns for a stored user carries the user's
stored refresh token. -/
theorem updateAccountDetails_exposes (c : Call) (s : Store) (req : Request)
    (parts : ProfileParts) (v : UserView) (u : UserDoc) (fullName email : String)
    (hreq : req.user = some v) (hu : findById s (some v._id) = some u)
    (hf : parts.fullName = some fullName) (he : req.body.email = some email)
    (hfn : fullName ≠ "") (hen : email ≠ "") (hdb : c.dbFault 0 = none) :
    ∃ resp s' w, updateAccountDetails c s req parts = (.ok resp, s') ∧
      resp.userRecord = some w ∧ w.password = none ∧ w.refreshToken = u.refreshToken ∧
      storedRefreshToken s' v._id = some u.refreshToken := by
  obtain ⟨w, hw, hp, hr, hs⟩ := findByIdAndUpdate_view s v._id u
    (fun d => { d with fullName := fullName, email := email }) (fun _ => ⟨rfl, rfl⟩) hu
  have hout : updateAccountDetails c s req parts =
      (.ok { status := 200, cookies := [], cleared := []
             json := ApiResponse.new 200 (.user (findByIdAndUpdate s (some v._id)
                 (fun d => { d with fullName := fullName, email := email })).2)
               (some "Account details updated successfully") },
        (findByIdAndUpdate s (some v._id)
          (fun d => { d with fullName := fullName, email := email })).1) := by
    simp [updateAccountDetails, hf, he, hfn, hen, hdb, hreq]
  refine ⟨_, _, w, hout, ?_, hp, hr, hs⟩
  simp [Response.userRecord, ApiResponse.new, hw]

/-- The record that `updateUserAvatar` returns for a stored user carries the user's stored
refresh token. -/
theorem updateUserAvatar_exposes (fx : Effects) (c : Call) (s : Store) (req : Request)
    (parts : ProfileParts) (v : UserView) (u : UserDoc) (avatar : CloudResponse)
    (url : String)
    (hreq : req.user = some v) (hu : findById s (some v._id) = some u)
    (hpath : truthy parts.filePath = true)
    (hup : uploadOnCloudinary fx parts.filePath = .ok (some avatar))
    (hurl : avatar.url = some url) (hne : url ≠ "") (hdb : c.dbFault 0 = none) :
    ∃ resp s' w, updateUserAvatar fx c s req parts = (.ok resp, s') ∧
      resp.userRecord = some w ∧ w.password = none ∧ w.refreshToken = u.refreshToken := by
  obtain ⟨w, hw, hp, hr, _⟩ := findByIdAndUpdate_view s v._id u
    (fun d => { d with avatar := url }) (fun _ => ⟨rfl, rfl⟩) hu
  have hout : updateUserAvatar fx c s req parts =
      (.ok { status := 200, cookies := [], cleared := []
             json := ApiResponse.new 200 (.user (findByIdAndUpdate s (some v._id)
                 (fun d => { d with avatar := url })).2)
               (some "Avatar updated successfully") },
        (findByIdAndUpdate s (some v._id) (fun d => { d with avatar := url })).1) := by
    simp [updateUserAvatar, hpath, hup, hurl, hne, hdb, hreq]
  refine ⟨_, _, w, hout, ?_, hp, hr⟩
  simp [Response.userRecord, ApiResponse.new, hw]

/-- The record that `updateUserCoverImage` returns for a stored user carries the user's
stored refresh token. -/
theorem updateUserCoverImage_exposes (fx : Effects) (c : Call) (s : Store) (req : Request)
    (parts : ProfileParts) (v : UserView) (u : UserDoc) (coverImage : CloudResponse)
    (url : String)
    (hreq : req.user = some v) (hu : findById s (some v._id) = some u)
    (hpath : truthy parts.filePath = true)
    (hup : uploadOnCloudinary fx parts.filePath = .ok (some coverImage))
    (hurl : coverImage.url = some url) (hne : url ≠ "") (hdb : c.dbFault 0 = none) :
    ∃ resp s' w, updateUserCoverImage fx c s req parts = (.ok resp, s') ∧
      resp.userRecord = some w ∧ w.password = none ∧ w.refreshToken = u.refreshToken := by
  obtain ⟨w, hw, hp, hr, _⟩ := findByIdAndUpdate_view s v._id u
    (fun d => { d with coverImage := url }) (fun _ => ⟨rfl, rfl⟩) hu
  have hout : updateUserCoverImage fx c s req parts =
      (.ok { status := 200, cookies := [], cleared := []
             json := ApiResponse.new 200 (.user (findByIdAndUpdate s (some v._id)
                 (fun d => { d with coverImage := url })).2)
               (some "Cover image updated successfully") },
        (findByIdAndUpdate s (some v._id) (fun d => { d with coverImage := url })).1) := by
    simp [updateUserCoverImage, hpath, hup, hurl, hne, hdb, hreq]
  refine ⟨_, _, w, hout, ?_, hp, hr⟩
  simp [Response.userRecord, ApiResponse.new, hw]

/-- C11, evaluated where it fails. Alice, who stores a refresh token, calls the three
update routes with a valid access token: the record in each response has no password but
carries her stored refresh token. The record of `GET /current-user` carries neither. -/
theorem update_routes_expose_refreshToken :
    updateAccountRoute demoAuthEnv (calmCall 5) (calmCall 5) demoStore
        (accessRequest (demoSign 'A' 1 4) { emptyBody with email := some "alice@y.com" })
        { noParts with fullName := some "Alice B" } =
      (.ok { status := 200, cookies := [], cleared := []
             json := { statusCode := 200
                       data := .user (some
                         { _id := 1, username := "alice", email := "alice@y.com",
                           fullName := "Alice B", avatar := "a.png", coverImage := "",
                           password := none, refreshToken := some (demoSign 'R' 1 3) })
                       message := "Account details updated successfully"
                       success := true } },
        [{ alice with fullName := "Alice B", email := "alice@y.com" }, bob]) ∧
      ((avatarRoute demoAuthEnv demoEffects (calmCall 5) (calmCall 5) demoStore
          (accessRequest (demoSign 'A' 1 4) emptyBody)
          { noParts with filePath := some "public/temp/a.png" }).1.toOption.bind
            Response.userRecord).map (fun w => (w.password, w.refreshToken)) =
        some (none, alice.refreshToken) ∧
      ((coverImageRoute demoAuthEnv demoEffects (calmCall 5) (calmCall 5) demoStore
          (accessRequest (demoSign 'A' 1 4) emptyBody)
          { noParts with filePath := some "public/temp/c.png" }).1.toOption.bind
            Response.userRecord).map (fun w => (w.password, w.refreshToken)) =
        some (none, alice.refreshToken) ∧
      alice.refreshToken = some (demoSign 'R' 1 3) ∧
      ((currentUserRoute demoAuthEnv (calmCall 5) demoStore
          (accessRequest (demoSign 'A' 1 4) emptyBody) noParts).1.toOption.bind
            Response.userRecord).map (fun w => (w.password, w.refreshToken)) =
        some (none, none) := by
  decide

end BackendYouTube
